import Mathlib

/-!
Shallow embedding of the NRPC presence reconciliation core.

Source modules embedded here:
* `src/Services/netflix.js` — telemetry normalizer, change detector, session
  tracker, inactivity watchdog, reconciliation orchestrator (`process`,
  `stop`, `reset`, `status`).
* the Discord RPC client module (`RPC/client.js`, provided as
  `src/unnamed/part_000`) — presence connection lifecycle, title parsing,
  activity rendering, `set_activity` / `clear_activity` / `update`.

Modelling conventions:
* Every `Date.now()` read inside one synchronous step is modelled by a single
  `now : Nat` parameter (milliseconds).
* JS numbers carried by raw samples are modelled as `ℚ` (validation and
  `Math.floor` are the only operations applied to them; `NaN` inputs are out
  of the modelled domain).
* A `setTimeout` handle is modelled as the deadline at which the pending
  timer would fire (`Option Nat`); a fired timer is spent, so firing clears
  the field (the stale handle left in the JS state is observable only through
  `clearTimeout`, which is a no-op on a fired timer).
* The outcome of an awaited external call (Discord `client.setActivity`,
  `client.clearActivity`, `client.login`, or the service's `rpc.update`) is
  an explicit oracle parameter: `Except String Unit` (resolve / reject with a
  message) or `Bool` for login.
-/

namespace NRPC

namespace Netflix

/-- Configuration of the netflix service (`config` in netflix.js). -/
structure SvcConfig where
  threshold : Nat
  timeout : Nat
  minDuration : Nat
  maxTitle : Nat
deriving Repr

/-- Values from netflix.js: threshold 5, timeout 60000 ms, minDuration 10 s, maxTitle 128. -/
def config : SvcConfig := ⟨5, 60000, 10, 128⟩

/-- Raw playback sample as received by `process` (fields may be absent in JS). -/
structure RawSample where
  title : Option String
  current : Option ℚ
  duration : Option ℚ
  playing : Option Bool
  timestamp : Option Nat
deriving DecidableEq, Repr

/-- Normalized sample (`normalize` output: sanitized fields plus derived fields). -/
structure NormalizedSample where
  title : String
  current : Nat
  duration : Nat
  playing : Bool
  timestamp : Nat
  percent : Int
  remaining : Int
  elapsed : Nat
deriving DecidableEq, Repr

/-- Viewing session (`create_session` shape). `id` is the creation clock value
(the JS id string embeds `Date.now()` plus random digits; it is opaque). -/
structure Session where
  id : Nat
  title : String
  started : Nat
  updated : Nat
  duration : Nat
  watched : ℚ
  pauses : Nat
  seeks : Nat
deriving DecidableEq, Repr

/-- Mutable service state (`state` in netflix.js). `watchdog` models
`state.timeout`: `some d` is a pending inactivity timer due at `d`. -/
structure SvcState where
  current : Option NormalizedSample
  previous : Option NormalizedSample
  lastUpdate : Nat
  session : Option Session
  paused : Bool
  watchdog : Option Nat
deriving DecidableEq, Repr

/-- Cache bookkeeping (`cache` in netflix.js). -/
structure Cache where
  data : Option NormalizedSample
  timestamp : Nat
  hits : Nat
  misses : Nat
deriving DecidableEq, Repr

/-- Validation of a raw sample (`validate`): title present and non-empty
(JS falsiness of the empty string), current numeric and non-negative,
duration numeric and at least `minDuration`, playing boolean. -/
def validate (d : RawSample) : Bool :=
  (match d.title with
   | some t => !(t = "")
   | none => false) &&
  (match d.current with
   | some c => decide (0 ≤ c)
   | none => false) &&
  (match d.duration with
   | some dur => !(decide (dur < (config.minDuration : ℚ)))
   | none => false) &&
  d.playing.isSome

/-- Sanitized sample (the record built by `sanitize`). -/
structure CleanSample where
  title : String
  current : Nat
  duration : Nat
  playing : Bool
  timestamp : Nat
deriving DecidableEq, Repr

/-- Sanitization (`sanitize`): title truncated to 128 characters, position and
duration floored and clamped to ≥ 0, timestamp defaulting to `now` when
absent or zero (JS `data.timestamp || Date.now()`). The `getD` defaults only
matter for unvalidated input, which `process` never passes here. -/
def sanitize (d : RawSample) (now : Nat) : CleanSample :=
  { title := (d.title.getD "").take config.maxTitle
    current := (max 0 ⌊d.current.getD 0⌋).toNat
    duration := (max 0 ⌊d.duration.getD 0⌋).toNat
    playing := d.playing.getD false
    timestamp :=
      match d.timestamp with
      | some t => if t = 0 then now else t
      | none => now }

/-- Normalization (`normalize`): sanitize plus derived fields
`percent = ⌊current / duration * 100⌋`, `remaining = duration - current`,
`elapsed = current`. (The JS float quotient is modelled exactly in `ℚ`.) -/
def normalize (d : RawSample) (now : Nat) : NormalizedSample :=
  let clean := sanitize d now
  { title := clean.title
    current := clean.current
    duration := clean.duration
    playing := clean.playing
    timestamp := clean.timestamp
    percent := ⌊((clean.current : ℚ) / (clean.duration : ℚ)) * 100⌋
    remaining := (clean.duration : Int) - (clean.current : Int)
    elapsed := clean.current }

/-- Change detection (`compare`): either sample missing, title differs,
playing flag differs, or absolute position delta strictly exceeds the
threshold. -/
def compare (prev next : Option NormalizedSample) : Bool :=
  match prev, next with
  | some p, some n =>
    if !(p.title = n.title) then true
    else if !(p.playing = n.playing) then true
    else decide ((config.threshold : ℤ) < |(p.current : ℤ) - (n.current : ℤ)|)
  | _, _ => true

/-- Propagation decision (`should_update`): always when no current sample;
otherwise only when changed and at least 1000 ms passed since the last
propagated update. -/
def should_update (st : SvcState) (data : NormalizedSample) (now : Nat) : Bool :=
  match st.current with
  | none => true
  | some cur =>
    if !(compare (some cur) (some data)) then false
    else if (now : ℤ) - (st.lastUpdate : ℤ) < 1000 then false
    else true

/-- Session creation (`create_session`). -/
def create_session (data : NormalizedSample) (now : Nat) : Session :=
  { id := now
    title := data.title
    started := now
    updated := now
    duration := data.duration
    watched := 0
    pauses := 0
    seeks := 0 }

/-- Session update (`update_session`): create when none or on title change
(the old session is ended and discarded); otherwise mutate in place — seek
when the position delta exceeds the threshold, pause counter on a
paused→playing edge, and watch-time accrual of
`min((now - lastUpdate)/1000, threshold)` seconds only while playing and only
when a current sample exists. -/
def update_session (st : SvcState) (data : NormalizedSample) (now : Nat) : Session :=
  match st.session with
  | none => create_session data now
  | some s =>
    if !(s.title = data.title) then create_session data now
    else
      let s1 := { s with updated := now }
      match st.current with
      | none => s1
      | some cur =>
        let diff : ℤ := (data.current : ℤ) - (cur.current : ℤ)
        let s2 := if (config.threshold : ℤ) < |diff| then { s1 with seeks := s1.seeks + 1 } else s1
        let s3 := if data.playing && !cur.playing then { s2 with pauses := s2.pauses + 1 } else s2
        if data.playing then
          { s3 with watched :=
              s3.watched + min ((((now : ℤ) - (st.lastUpdate : ℤ) : ℤ) : ℚ) / 1000) (config.threshold : ℚ) }
        else s3

/-- Watchdog rearm (`reset_timeout`): cancel any pending timer and schedule a
new one due `config.timeout` ms from now. -/
def reset_timeout (st : SvcState) (now : Nat) : SvcState :=
  { st with watchdog := some (now + config.timeout) }

end Netflix

namespace Client

/-- Configuration of the RPC client module: retry delay 5000 ms, login
timeout 10000 ms, max reconnect attempts 3. -/
structure RpcConfig where
  retry : Nat
  timeout : Nat
  reconnect : Nat
deriving Repr

/-- Values from the RPC client `config`. -/
def rpcConfig : RpcConfig := ⟨5000, 10000, 3⟩

/-- Last-known activity cached by `set_activity`
(`{title, current, duration, playing, _lastUpdate}`). -/
structure CachedActivity where
  title : String
  current : ℚ
  duration : ℚ
  playing : Bool
  lastUpdate : Nat
deriving DecidableEq, Repr

/-- Mutable client state (`state` in the RPC client). `hasClient` models
`state.client !== null`; `ticker` models a live `state._ticker` interval. -/
structure RpcState where
  hasClient : Bool
  connected : Bool
  ready : Bool
  activity : Option CachedActivity
  timestamp : Option Nat
  attempts : Nat
  id : Option String
  ticker : Bool
deriving DecidableEq, Repr

/-- Data handed to `update` / `set_activity`
(`{title, current, duration, playing}`). -/
structure MediaData where
  title : String
  current : ℚ
  duration : ℚ
  playing : Bool
deriving DecidableEq, Repr

/-- Activity payload sent to Discord (`format_activity` output plus optional
timestamps). The JS field `instance` is spelled `inst` (Lean keyword). -/
structure Activity where
  details : String
  state : Option String
  largeImageKey : String
  largeImageText : String
  type : Nat
  inst : Bool
  startTimestamp : Option Int
  endTimestamp : Option Int
deriving DecidableEq, Repr

/-- Parsed title variant (`parse_title` result object). `format` is
`"disk"` or `"season"`. -/
structure ParsedTitle where
  series : String
  season : Option String
  episode : String
  name : Option String
  format : String
deriving DecidableEq, Repr

/-- JS `String.prototype.trim` (whitespace stripped from both ends), defined
by structural recursion on the character list so that it reduces in the
kernel (`String.trim` does not). -/
def js_trim (s : String) : String :=
  ((s.data.dropWhile Char.isWhitespace).reverse.dropWhile Char.isWhitespace).reverse.asString

/-- All decompositions `s = pre ++ ':' ++ post` with `pre` non-empty, in order
of increasing `pre` — the candidate splits of the lazy leading group `(.+?)`
followed by the literal colon in the title regexes. `acc` holds the reversed
prefix consumed so far. -/
def splits_from (acc : List Char) : List Char → List (List Char × List Char)
  | [] => []
  | c :: rest =>
    if c = ':' && !acc.isEmpty then
      (acc.reverse, rest) :: splits_from (c :: acc) rest
    else splits_from (c :: acc) rest

/-- Candidate `(series, rest-after-colon)` splits of a title. -/
def splits (s : List Char) : List (List Char × List Char) := splits_from [] s

/-- Tail of the disk regex after the colon: `\s*D(\d+)\s+(.+)`, returning the
captured `(episode digits, raw name)`. The branch taking the last whitespace
character as the name mirrors regex backtracking when nothing but whitespace
follows the digits (`\s+` gives one character back to `(.+)`). Titles are
modelled as single-line, so `.` is any character. -/
def match_disk (post : List Char) : Option (String × String) :=
  match post.dropWhile Char.isWhitespace with
  | c :: r1 =>
    if c = 'D' || c = 'd' then
      let ds := r1.takeWhile Char.isDigit
      if ds.isEmpty then none
      else
        let r2 := r1.dropWhile Char.isDigit
        let sp := r2.takeWhile Char.isWhitespace
        let rest := r2.dropWhile Char.isWhitespace
        if sp.isEmpty then none
        else if !rest.isEmpty then some (ds.asString, rest.asString)
        else if 2 ≤ sp.length then some (ds.asString, String.mk [sp.getLast?.getD ' '])
        else none
    else none
  | [] => none

/-- Shared core of the season regexes after the colon: `\s*S(\d+)\s*E(\d+)`,
returning `(season digits, episode digits, remainder)`. -/
def match_season_core (post : List Char) : Option (String × String × List Char) :=
  match post.dropWhile Char.isWhitespace with
  | c :: r1 =>
    if c = 'S' || c = 's' then
      let ds := r1.takeWhile Char.isDigit
      if ds.isEmpty then none
      else
        match (r1.dropWhile Char.isDigit).dropWhile Char.isWhitespace with
        | e :: r2 =>
          if e = 'E' || e = 'e' then
            let es := r2.takeWhile Char.isDigit
            if es.isEmpty then none
            else some (ds.asString, es.asString, r2.dropWhile Char.isDigit)
          else none
        | [] => none
    else none
  | [] => none

/-- Remainder of the named season regex: `\s*-?\s*(.+)`. The single-character
fallbacks mirror regex backtracking when `(.+)` would otherwise be empty. -/
def match_tail_name (r : List Char) : Option String :=
  let sp1 := r.takeWhile Char.isWhitespace
  let r1 := r.dropWhile Char.isWhitespace
  match r1 with
  | '-' :: r2 =>
    let sp2 := r2.takeWhile Char.isWhitespace
    let r3 := r2.dropWhile Char.isWhitespace
    if !r3.isEmpty then some r3.asString
    else if !sp2.isEmpty then some (String.mk [sp2.getLast?.getD ' '])
    else some "-"
  | _ :: _ => some r1.asString
  | [] =>
    if !sp1.isEmpty then some (String.mk [sp1.getLast?.getD ' '])
    else none

/-- Title grammar (`parse_title`): tries, in order, the disk pattern
`(.+?):\s*D(\d+)\s+(.+)`, the named season pattern
`(.+?):\s*S(\d+)\s*E(\d+)\s*-?\s*(.+)`, then the bare season pattern
`(.+?):\s*S(\d+)\s*E(\d+)`; `null` when none matches. -/
def parse_title (title : String) : Option ParsedTitle :=
  let cs := title.data
  match (splits cs).findSome? (fun pr =>
      (match_disk pr.2).map (fun en =>
        ({ series := js_trim pr.1.asString, season := none, episode := en.1,
           name := some (js_trim en.2), format := "disk" } : ParsedTitle))) with
  | some p => some p
  | none =>
    match (splits cs).findSome? (fun pr =>
        (match_season_core pr.2).bind (fun se =>
          (match_tail_name se.2.2).map (fun nm =>
            ({ series := js_trim pr.1.asString, season := some se.1, episode := se.2.1,
               name := some (js_trim nm), format := "season" } : ParsedTitle)))) with
    | some p => some p
    | none =>
      (splits cs).findSome? (fun pr =>
        (match_season_core pr.2).map (fun se =>
          ({ series := js_trim pr.1.asString, season := some se.1, episode := se.2.1,
             name := none, format := "season" } : ParsedTitle)))

/-- Activity formatting (`format_activity`): an unparsed title renders as a
movie (title only, no `state` field); a parsed title renders the series as
`details` and the season/episode (or disk) line as `state`. `parse_title`
only ever yields the `"season"` or `"disk"` format. -/
def format_activity (data : MediaData) : Activity :=
  match parse_title data.title with
  | none =>
    { details := data.title, state := none, largeImageKey := "netflix_logo",
      largeImageText := "Netflix", type := 3, inst := false,
      startTimestamp := none, endTimestamp := none }
  | some p =>
    let stateText :=
      if p.format = "season" then
        match p.name with
        | some nm => "S" ++ p.season.getD "" ++ "E" ++ p.episode ++ " - " ++ nm
        | none => "S" ++ p.season.getD "" ++ "E" ++ p.episode
      else "Díl " ++ p.episode ++ " - " ++ p.name.getD ""
    { details := p.series, state := some stateText, largeImageKey := "netflix_logo",
      largeImageText := "Netflix", type := 3, inst := false,
      startTimestamp := none, endTimestamp := none }

/-- Validation of activity data (`validate_data`): non-empty title,
non-negative current, strictly positive duration, boolean playing. -/
def validate_data (d : MediaData) : Bool :=
  !(d.title = "") && decide (0 ≤ d.current) && decide (0 < d.duration)

/-- The payload built inside `set_activity`: formatted activity plus
`start = ⌊now/1000⌋ - ⌊current⌋` and `end = start + ⌊duration⌋`, emitted only
when the duration is positive and the sample is playing. -/
def render_payload (data : MediaData) (now : Nat) : Activity :=
  let activity := format_activity data
  let nowSec : Int := ((now / 1000 : Nat) : Int)
  let currentSec : Int := ⌊data.current⌋
  let durationSec : Int := ⌊data.duration⌋
  let start := nowSec - currentSec
  if 0 < durationSec ∧ data.playing = true then
    { activity with startTimestamp := some start, endTimestamp := some (start + durationSec) }
  else activity

/-- Result of a `set_activity` call: resolved boolean, post-state, and the
payload passed to the Discord client (`none` when no send was attempted). -/
structure SendOutcome where
  result : Bool
  rpc : RpcState
  sent : Option Activity
deriving DecidableEq, Repr

/-- Activity send (`set_activity`). Invalid data resolves `false`. Without a
ready client the raw data is cached as the pending activity and the call
resolves `false`. Otherwise the rendered payload is sent (`send` is the
outcome of the awaited `client.setActivity`): a rejection is caught and
resolves `false` with the state unchanged; on success the floored values are
cached and the 15 s ticker is restarted exactly when the activity is playing
with a positive duration. -/
def set_activity (data : MediaData) (rst : RpcState) (now : Nat)
    (send : Except String Unit) : SendOutcome :=
  if !validate_data data then ⟨false, rst, none⟩
  else if !(rst.hasClient && rst.ready) then
    ⟨false,
      { rst with
          activity := some ⟨data.title, data.current, data.duration, data.playing, now⟩,
          timestamp := some now },
      none⟩
  else
    let payload := render_payload data now
    match send with
    | .error _ => ⟨false, rst, some payload⟩
    | .ok _ =>
      let durationSec : Int := ⌊data.duration⌋
      ⟨true,
        { rst with
            activity := some ⟨data.title, (⌊data.current⌋ : ℚ), (durationSec : ℚ),
                              data.playing, now⟩,
            timestamp := some now,
            ticker := decide (0 < durationSec) && data.playing },
        some payload⟩

/-- Activity clear (`clear_activity`): requires a ready client, else resolves
`false`; a rejected `client.clearActivity` is caught and resolves `false`;
on success the cached activity and ticker are dropped. -/
def clear_activity (rst : RpcState) (send : Except String Unit) : Bool × RpcState :=
  if !(rst.hasClient && rst.ready) then (false, rst)
  else
    match send with
    | .error _ => (false, rst)
    | .ok _ => (true, { rst with activity := none, timestamp := none, ticker := false })

/-- Connection predicate (`is_connected`). -/
def is_connected (rst : RpcState) : Bool := rst.connected && rst.ready

/-- Activity update (`update`): invalid data or a connection that is not
ready resolves `false` without any send; otherwise delegates to
`set_activity`. The `Except` result is the outcome of the promise returned to
the caller: every path resolves (`.ok`), because `set_activity` catches its
own awaits — non-delivery is signalled by the boolean, never by a rejection. -/
def rpc_update (data : MediaData) (rst : RpcState) (now : Nat)
    (send : Except String Unit) : Except String Bool × RpcState × Option Activity :=
  if !validate_data data then (.ok false, rst, none)
  else if !is_connected rst then (.ok false, rst, none)
  else
    let o := set_activity data rst now send
    (.ok o.result, o.rpc, o.sent)

/-- Ready callback (`handle_ready`): marks the connection ready, zeroes the
attempt counter, and — when an activity is cached — immediately re-sends it
through `set_activity` (replay). Returns the new state and the replayed
payload, if any send was attempted. -/
def handle_ready (rst : RpcState) (now : Nat) (send : Except String Unit) :
    RpcState × Option Activity :=
  let r1 := { rst with connected := true, ready := true, attempts := 0 }
  match r1.activity with
  | some a =>
    let o := set_activity ⟨a.title, a.current, a.duration, a.playing⟩ r1 now send
    (o.rpc, o.sent)
  | none => (r1, none)

/-- Disconnect callback (`handle_disconnect`): drops readiness and schedules
a reconnect after the fixed retry delay exactly when the attempt counter is
below the maximum (the counter itself is not changed here). -/
def handle_disconnect (rst : RpcState) : RpcState × Option Nat :=
  let r1 := { rst with connected := false, ready := false }
  if r1.attempts < rpcConfig.reconnect then (r1, some rpcConfig.retry) else (r1, none)

/-- Error callback (`handle_error`): drops readiness, schedules nothing. -/
def handle_error (rst : RpcState) : RpcState :=
  { rst with connected := false, ready := false }

/-- Teardown of the underlying handle (`disconnect`): no-op without a client. -/
def disconnect (rst : RpcState) : RpcState :=
  if !rst.hasClient then rst
  else { rst with connected := false, ready := false }

/-- Full teardown (`destroy`): disconnect, stop the ticker, and reset client
handle, cached activity, timestamp, attempt counter and client id. -/
def destroy (rst : RpcState) : RpcState :=
  let r1 := disconnect rst
  { r1 with ticker := false, hasClient := false, activity := none,
            timestamp := none, attempts := 0, id := none }

/-- Client construction (`create`): destroys any existing client first, then
installs a fresh handle with the given id. -/
def create (id : Option String) (rst : RpcState) : RpcState :=
  let r1 := if rst.hasClient then destroy rst else rst
  { r1 with hasClient := true, id := id }

/-- Connect (`connect`): no-op when already connected; otherwise creates a
fresh client and attempts login (`loginOk` is the outcome of the awaited
`client.login`). A failed login increments the attempt counter and schedules
a reconnect after the fixed retry delay exactly when the incremented counter
is still below the maximum. Returns (resolved value, state, scheduled delay). -/
def connect (id : Option String) (rst : RpcState) (loginOk : Bool) :
    Bool × RpcState × Option Nat :=
  if rst.connected then (true, rst, none)
  else
    let r1 := create id rst
    if loginOk then (true, r1, none)
    else
      let r2 := { r1 with attempts := r1.attempts + 1 }
      if r2.attempts < rpcConfig.reconnect then (false, r2, some rpcConfig.retry)
      else (false, r2, none)

/-- Reconnect (`reconnect`): no-op when connected, else `connect(state.id)`. -/
def reconnect (rst : RpcState) (loginOk : Bool) : Bool × RpcState × Option Nat :=
  if rst.connected then (true, rst, none)
  else connect rst.id rst loginOk

/-- Automatic events the connection reacts to without an explicit API call:
the client's `disconnected` and `error` events, and the firing of a
previously scheduled reconnect timer (with the login outcome it would get). -/
inductive AutoEvent where
  | disconnected
  | errored
  | timerFire (loginOk : Bool)
deriving DecidableEq, Repr

/-- Connection plus the number of scheduled reconnect timers not yet fired. -/
structure ConnSys where
  rpc : RpcState
  pending : Nat
deriving DecidableEq, Repr

/-- One scheduled timer per emitted schedule. -/
def sched_count (o : Option Nat) : Nat := if o.isSome then 1 else 0

/-- Transition of the connection under one automatic event: the callbacks may
add a scheduled reconnect; a firing timer consumes one pending slot and runs
`reconnect`. A `timerFire` with nothing pending is a no-op. -/
def auto_step (s : ConnSys) (e : AutoEvent) : ConnSys :=
  match e with
  | .disconnected =>
    let p := handle_disconnect s.rpc
    ⟨p.1, s.pending + sched_count p.2⟩
  | .errored => ⟨handle_error s.rpc, s.pending⟩
  | .timerFire ok =>
    if s.pending = 0 then s
    else
      let p := reconnect s.rpc ok
      ⟨p.2.1, (s.pending - 1) + sched_count p.2.2⟩

/-- Iterated automatic transitions. -/
def auto_steps (s : ConnSys) (es : List AutoEvent) : ConnSys := es.foldl auto_step s

end Client

namespace Netflix

/-- Result object of a `process` call. Keys absent in the JS return value are
`false` / `none` here. -/
structure ProcResult where
  success : Bool
  cached : Bool
  data : Option NormalizedSample
  session : Option Session
  error : Option String
deriving DecidableEq, Repr

/-- Outcome of a `process` call: result object, post-state, post-cache, and
whether `rpc.update` was invoked. -/
structure ProcOutcome where
  result : ProcResult
  state : SvcState
  cache : Cache
  calledRpc : Bool
deriving DecidableEq, Repr

/-- Orchestrator entry point (`process`). `rpcResult` is the outcome of the
awaited `rpc.update` promise (`.ok` with its resolved boolean, or `.error`
with a rejection message). Invalid data is rejected before any mutation; an
unchanged or throttled sample only bumps the cache-hit counter; an accepted
sample updates the session, rearms the watchdog, shifts previous←current,
commits the new sample, and then sends — a rejected send returns
`success := false` without rolling the committed state back, and only a
resolved send updates `cache.data`. -/
def process (st : SvcState) (c : Cache) (raw : RawSample) (now : Nat)
    (rpcResult : Except String Bool) : ProcOutcome :=
  if !validate raw then
    ⟨⟨false, false, none, none, some "invalid"⟩, st, c, false⟩
  else
    let normalized := normalize raw now
    if !should_update st normalized now then
      ⟨⟨true, true, none, none, none⟩, st, { c with hits := c.hits + 1 }, false⟩
    else
      let c1 := { c with misses := c.misses + 1 }
      let sess := update_session st normalized now
      let st1 := reset_timeout { st with session := some sess } now
      let st2 := { st1 with previous := st1.current, current := some normalized,
                            lastUpdate := now, paused := !normalized.playing }
      match rpcResult with
      | .ok _ =>
        ⟨⟨true, false, some normalized, st2.session, none⟩, st2,
          { c1 with data := some normalized, timestamp := now }, true⟩
      | .error msg =>
        ⟨⟨false, false, none, none, some msg⟩, st2, c1, true⟩

/-- Inactivity timeout (`handle_timeout`): ends the session, calls
`rpc.clear()` (its rejection is caught and ignored), and clears the current
and previous sample pointers and the paused flag. The fired timer is spent,
so the watchdog slot is cleared. -/
def handle_timeout (st : SvcState) (rst : Client.RpcState)
    (send : Except String Unit) : SvcState × Client.RpcState :=
  let rst1 := (Client.clear_activity rst send).2
  ({ st with session := none, current := none, previous := none,
             paused := false, watchdog := none }, rst1)

/-- Firing of the inactivity watchdog: enabled exactly when a timer is
pending and its deadline has been reached — i.e. the timeout window passed
with no accepted sample, since every accepted sample rearms the timer via
`reset_timeout`. Firing runs `handle_timeout`. -/
def watchdog_fire (st : SvcState) (rst : Client.RpcState) (now : Nat)
    (send : Except String Unit) : Option (SvcState × Client.RpcState) :=
  match st.watchdog with
  | some d => if d ≤ now then some (handle_timeout st rst send) else none
  | none => none

/-- Stop (`stop`): awaits `rpc.clear()` (which never rejects), ends the
session, cancels the watchdog, and nulls current/previous and the paused
flag. `lastUpdate` and the cache are untouched. -/
def stop (st : SvcState) (rst : Client.RpcState)
    (send : Except String Unit) : SvcState × Client.RpcState :=
  let rst1 := (Client.clear_activity rst send).2
  ({ st with session := none, watchdog := none, current := none,
             previous := none, paused := false }, rst1)

/-- Status view (`status`). `hitRate` is the JS `hits/(hits+misses) || 0`
(the `0/0` NaN becomes 0). -/
structure StatusView where
  active : Bool
  paused : Bool
  current : Option NormalizedSample
  session : Option Session
  lastUpdate : Nat
  cacheHits : Nat
  cacheMisses : Nat
  hitRate : ℚ
deriving DecidableEq, Repr

/-- Status query (`status`). -/
def status (st : SvcState) (c : Cache) : StatusView :=
  { active := st.current.isSome
    paused := st.paused
    current := st.current
    session := st.session
    lastUpdate := st.lastUpdate
    cacheHits := c.hits
    cacheMisses := c.misses
    hitRate := if c.hits + c.misses = 0 then 0 else (c.hits : ℚ) / ((c.hits : ℚ) + (c.misses : ℚ)) }

/-- Reset (`reset`): cancels the watchdog, ends the session, nulls
current/previous, zeroes `lastUpdate` and the paused flag, and zeroes the
whole cache. It makes no RPC call. -/
def reset (_st : SvcState) (_c : Cache) : SvcState × Cache :=
  (({ current := none, previous := none, lastUpdate := 0, session := none,
      paused := false, watchdog := none } : SvcState),
   ({ data := none, timestamp := 0, hits := 0, misses := 0 } : Cache))

end Netflix

/-- Whole-system state: the netflix service state and cache plus the RPC
client state it drives. -/
structure SysState where
  svc : Netflix.SvcState
  cache : Netflix.Cache
  rpc : Client.RpcState
deriving DecidableEq, Repr

/-- System-level `reset`: `netflix.reset()` touches only the service state
and the cache; no call reaches the RPC client (the `/reset` route in
server.js likewise calls only `netflix.reset()`). -/
def reset_sys (s : SysState) : SysState :=
  let p := Netflix.reset s.svc s.cache
  ⟨p.1, p.2, s.rpc⟩

namespace Netflix

/-- Concrete valid raw sample reused by the witnesses. -/
def rawA : RawSample := ⟨some "A", some 10, some 60, some true, none⟩

/-- Initial service state (the module-level `state` literal). -/
def st0 : SvcState := ⟨none, none, 0, none, false, none⟩

/-- Initial cache (the module-level `cache` literal). -/
def cache0 : Cache := ⟨none, 0, 0, 0⟩

/-- Concrete active service state used by witnesses: the state after the
first accepted sample `rawA` at time 5000. -/
def svc1 : SvcState :=
  ⟨some (normalize rawA 5000), none, 5000, some (create_session (normalize rawA 5000) 5000),
    false, some 65000⟩

/-- Concrete non-empty cache used by witnesses. -/
def cache1 : Cache := ⟨some (normalize rawA 5000), 5000, 2, 3⟩

/-- Service state after the watchdog fired on `svc1`. -/
def svcCleared : SvcState := ⟨none, none, 5000, none, false, none⟩

end Netflix

namespace Client

/-- Concrete cached activity used by witnesses and counterexamples. -/
def act0 : CachedActivity := ⟨"Inception", 100, 7200, true, 0⟩

/-- Ready client with a set activity. -/
def rpcReady : RpcState := ⟨true, true, true, some act0, some 0, 0, some "cid", false⟩

/-- Disconnected client with no activity. -/
def rpcDown : RpcState := ⟨false, false, false, none, none, 0, none, false⟩

/-- Client that exhausted its reconnect attempts while an activity is cached:
it still holds the (dead) client handle and client id. -/
def rpcExhausted : RpcState := ⟨true, false, false, some act0, some 0, 3, some "cid", false⟩

/-- Down client holding a handle, a cached activity and one prior attempt. -/
def rpcCached : RpcState := ⟨true, false, false, some act0, some 0, 1, some "cid", false⟩

/-- Concrete media data matching `rawA`. -/
def mdA : MediaData := ⟨"A", 10, 60, true⟩

/-- Ready client after its activity was cleared. -/
def rpcCleared : RpcState := ⟨true, true, true, none, none, 0, some "cid", false⟩

end Client

namespace Netflix

theorem compare_some_iff (p n : NormalizedSample) :
    compare (some p) (some n) = true ↔
      (¬(p.title = n.title) ∨ ¬(p.playing = n.playing) ∨
       (5 : ℤ) < |(p.current : ℤ) - (n.current : ℤ)|) := by
  unfold compare
  by_cases ht : p.title = n.title <;> by_cases hp : p.playing = n.playing <;>
    simp [ht, hp, config]

theorem should_update_iff (st : SvcState) (n : NormalizedSample) (now : Nat) :
    should_update st n now = true ↔
      (st.current = none ∨
        ((∃ cur, st.current = some cur ∧
            (¬(cur.title = n.title) ∨ ¬(cur.playing = n.playing) ∨
             (5 : ℤ) < |(cur.current : ℤ) - (n.current : ℤ)|)) ∧
         (1000 : ℤ) ≤ (now : ℤ) - (st.lastUpdate : ℤ))) := by
  cases hc : st.current with
  | none =>
    have hval : should_update st n now = true := by simp [should_update, hc]
    simp [hval, hc]
  | some cur =>
    by_cases hcmp : compare (some cur) (some n) = true
    · by_cases hq : (now : ℤ) - (st.lastUpdate : ℤ) < 1000
      · have hval : should_update st n now = false := by
          simp [should_update, hc, hcmp, hq]
        simp only [hval, hc]
        constructor
        · intro h; exact absurd h (by decide)
        · rintro (h | ⟨-, hge⟩)
          · exact absurd h (by simp)
          · omega
      · have hval : should_update st n now = true := by
          simp [should_update, hc, hcmp, hq]
        simp only [hval, hc]
        constructor
        · intro _
          exact Or.inr ⟨⟨cur, rfl, (compare_some_iff cur n).mp hcmp⟩, by omega⟩
        · intro _; trivial
    · have hcf : compare (some cur) (some n) = false := by
        cases h : compare (some cur) (some n) with
        | false => rfl
        | true => exact absurd h hcmp
      have hval : should_update st n now = false := by
        simp [should_update, hc, hcf]
      have hnp := (not_iff_not.mpr (compare_some_iff cur n)).mp hcmp
      simp only [hval, hc]
      constructor
      · intro h; exact absurd h (by decide)
      · rintro (h | ⟨⟨c2, hc2, hp2⟩, -⟩)
        · exact absurd h (by simp)
        · injection hc2 with he
          subst he
          exact absurd hp2 hnp

theorem process_cached_eq (st : SvcState) (c : Cache) (raw : RawSample) (now : Nat)
    (r : Except String Bool) (hv : validate raw = true)
    (hs : should_update st (normalize raw now) now = false) :
    process st c raw now r =
      ⟨⟨true, true, none, none, none⟩, st, { c with hits := c.hits + 1 }, false⟩ := by
  simp [process, hv, hs]

theorem process_propagate_state (st : SvcState) (c : Cache) (raw : RawSample) (now : Nat)
    (r : Except String Bool) (hv : validate raw = true)
    (hs : should_update st (normalize raw now) now = true) :
    (process st c raw now r).state =
      { current := some (normalize raw now), previous := st.current, lastUpdate := now,
        session := some (update_session st (normalize raw now) now),
        paused := !(normalize raw now).playing,
        watchdog := some (now + 60000) } := by
  cases r <;> simp [process, hv, hs, reset_timeout, config]

/-- C1: for every raw sample accepted by the normalizer, `process` propagates
the sample (returns a non-cached result) if and only if either no current
sample exists, or the sample is changed — title differs from the current
sample, or the playing flag differs, or the absolute position delta exceeds
the threshold of 5 — and at least 1000 ms elapsed since the last propagated
update; in every other case the sample is suppressed and the cached result
`{success := true, cached := true}` is returned. -/
theorem C1_process_propagation (st : SvcState) (c : Cache) (raw : RawSample)
    (now : Nat) (rpcResult : Except String Bool)
    (hv : validate raw = true) :
    ((process st c raw now rpcResult).result.cached = false ↔
      (st.current = none ∨
        ((∃ cur, st.current = some cur ∧
            (¬(cur.title = (normalize raw now).title) ∨
             ¬(cur.playing = (normalize raw now).playing) ∨
             (5 : ℤ) < |(cur.current : ℤ) - ((normalize raw now).current : ℤ)|)) ∧
         (1000 : ℤ) ≤ (now : ℤ) - (st.lastUpdate : ℤ)))) ∧
    ((process st c raw now rpcResult).result.cached = true →
      (process st c raw now rpcResult).result = ⟨true, true, none, none, none⟩) := by
  cases hs : should_update st (normalize raw now) now with
  | true =>
    constructor
    · constructor
      · intro _
        exact (should_update_iff st (normalize raw now) now).mp hs
      · intro _
        cases rpcResult <;> simp [process, hv, hs]
    · intro hcache
      exfalso
      cases rpcResult <;> simp [process, hv, hs] at hcache
  | false =>
    rw [process_cached_eq st c raw now rpcResult hv hs]
    refine ⟨⟨fun h => ?_, fun h => ?_⟩, fun _ => rfl⟩
    · simp at h
    · exact absurd ((should_update_iff st (normalize raw now) now).mpr h) (by simp [hs])

theorem compare_eq_false_of (p n : NormalizedSample) (h1 : p.title = n.title)
    (h2 : p.playing = n.playing) (h3 : p.current = n.current) :
    compare (some p) (some n) = false := by
  simp [compare, h1, h2, h3, config]

theorem should_update_false_of_throttle (st : SvcState) (n : NormalizedSample) (now : Nat)
    (cur : NormalizedSample) (hc : st.current = some cur)
    (hq : (now : ℤ) - (st.lastUpdate : ℤ) < 1000) :
    should_update st n now = false := by
  cases h : should_update st n now with
  | false => rfl
  | true =>
    rcases (should_update_iff st n now).mp h with hnone | ⟨-, hge⟩
    · rw [hc] at hnone; exact absurd hnone (by simp)
    · omega

theorem should_update_false_of_unchanged (st : SvcState) (n : NormalizedSample) (now : Nat)
    (cur : NormalizedSample) (hc : st.current = some cur)
    (hcf : compare (some cur) (some n) = false) :
    should_update st n now = false := by
  simp [should_update, hc, hcf]

/-- Witness for C1 at a concrete accepted first sample. -/
theorem C1_witness :
    validate rawA = true ∧
    (((process st0 cache0 rawA 5000 (Except.ok true)).result.cached = false ↔
      (st0.current = none ∨
        ((∃ cur, st0.current = some cur ∧
            (¬(cur.title = (normalize rawA 5000).title) ∨
             ¬(cur.playing = (normalize rawA 5000).playing) ∨
             (5 : ℤ) < |(cur.current : ℤ) - ((normalize rawA 5000).current : ℤ)|)) ∧
         (1000 : ℤ) ≤ (5000 : ℤ) - (st0.lastUpdate : ℤ)))) ∧
    ((process st0 cache0 rawA 5000 (Except.ok true)).result.cached = true →
      (process st0 cache0 rawA 5000 (Except.ok true)).result = ⟨true, true, none, none, none⟩)) :=
  ⟨by decide, C1_process_propagation st0 cache0 rawA 5000 (Except.ok true) (by decide)⟩

/-- C2: a second `process` call with an identical valid sample within the
throttle window (less than 1000 ms after the last propagated update) returns
`{success := true, cached := true}` and performs no session mutation, no
watchdog reset and no presence call — the whole service state is unchanged
and only the cache-hit counter is incremented. -/
theorem C2_second_call_cached (st : SvcState) (c : Cache) (raw : RawSample)
    (now1 now2 : Nat) (r1 r2 : Except String Bool) (o1 : ProcOutcome)
    (hv : validate raw = true)
    (ho1 : process st c raw now1 r1 = o1)
    (hthr : (now2 : ℤ) - (o1.state.lastUpdate : ℤ) < 1000) :
    process o1.state o1.cache raw now2 r2 =
      ⟨⟨true, true, none, none, none⟩, o1.state,
        { o1.cache with hits := o1.cache.hits + 1 }, false⟩ := by
  have hs2 : should_update o1.state (normalize raw now2) now2 = false := by
    cases hs1 : should_update st (normalize raw now1) now1 with
    | true =>
      have hstate := process_propagate_state st c raw now1 r1 hv hs1
      rw [ho1] at hstate
      have hc : o1.state.current = some (normalize raw now1) := by rw [hstate]
      exact should_update_false_of_unchanged o1.state (normalize raw now2) now2
        (normalize raw now1) hc (compare_eq_false_of _ _ rfl rfl rfl)
    | false =>
      have hcached := process_cached_eq st c raw now1 r1 hv hs1
      rw [ho1] at hcached
      have hne : st.current ≠ none := by
        intro h
        have htrue := (should_update_iff st (normalize raw now1) now1).mpr (Or.inl h)
        rw [htrue] at hs1
        exact absurd hs1 (by decide)
      obtain ⟨cur, hcur⟩ := Option.ne_none_iff_exists'.mp hne
      have hst : o1.state = st := by rw [hcached]
      rw [hst] at hthr ⊢
      exact should_update_false_of_throttle st (normalize raw now2) now2 cur hcur hthr
  calc process o1.state o1.cache raw now2 r2
      = ⟨⟨true, true, none, none, none⟩, o1.state,
          { o1.cache with hits := o1.cache.hits + 1 }, false⟩ :=
        process_cached_eq o1.state o1.cache raw now2 r2 hv hs2

/-- Witness for C2: the same sample 500 ms after an accepted first sample. -/
theorem C2_witness :
    validate rawA = true ∧
    (5500 : ℤ) - ((process st0 cache0 rawA 5000 (Except.ok true)).state.lastUpdate : ℤ) < 1000 ∧
    process (process st0 cache0 rawA 5000 (Except.ok true)).state
        (process st0 cache0 rawA 5000 (Except.ok true)).cache rawA 5500 (Except.ok true) =
      ⟨⟨true, true, none, none, none⟩, (process st0 cache0 rawA 5000 (Except.ok true)).state,
        { (process st0 cache0 rawA 5000 (Except.ok true)).cache with
            hits := (process st0 cache0 rawA 5000 (Except.ok true)).cache.hits + 1 },
        false⟩ :=
  ⟨by decide, by decide,
    C2_second_call_cached st0 cache0 rawA 5000 5500 (Except.ok true) (Except.ok true)
      (process st0 cache0 rawA 5000 (Except.ok true)) (by decide) rfl (by decide)⟩

/-- C3: for every accepted sample, when the awaited `rpc.update` call rejects
with a message, `process` returns `{success := false, error := message}` while
the mutated session, the shifted previous/current sample pointers, the new
`lastUpdate` timestamp, the updated paused flag and the rearmed watchdog are
all retained (the telemetry mutation commits before the send and is not
rolled back); the cache-miss counter is incremented but `cache.data` is not
updated. -/
theorem C3_send_failure_retains_state (st : SvcState) (c : Cache) (raw : RawSample)
    (now : Nat) (msg : String)
    (hv : validate raw = true)
    (hs : should_update st (normalize raw now) now = true) :
    (process st c raw now (Except.error msg)).result = ⟨false, false, none, none, some msg⟩ ∧
    (process st c raw now (Except.error msg)).state =
      { current := some (normalize raw now), previous := st.current, lastUpdate := now,
        session := some (update_session st (normalize raw now) now),
        paused := !(normalize raw now).playing,
        watchdog := some (now + 60000) } ∧
    (process st c raw now (Except.error msg)).cache = { c with misses := c.misses + 1 } ∧
    (process st c raw now (Except.error msg)).calledRpc = true := by
  refine ⟨?_, process_propagate_state st c raw now (Except.error msg) hv hs, ?_, ?_⟩ <;>
    simp [process, hv, hs]

/-- Witness for C3 at a concrete accepted sample and rejection message. -/
theorem C3_witness :
    validate rawA = true ∧
    should_update st0 (normalize rawA 5000) 5000 = true ∧
    ((process st0 cache0 rawA 5000 (Except.error "rpc failed")).result =
        ⟨false, false, none, none, some "rpc failed"⟩ ∧
      (process st0 cache0 rawA 5000 (Except.error "rpc failed")).state =
        { current := some (normalize rawA 5000), previous := st0.current, lastUpdate := 5000,
          session := some (update_session st0 (normalize rawA 5000) 5000),
          paused := !(normalize rawA 5000).playing,
          watchdog := some (5000 + 60000) } ∧
      (process st0 cache0 rawA 5000 (Except.error "rpc failed")).cache =
        { cache0 with misses := cache0.misses + 1 } ∧
      (process st0 cache0 rawA 5000 (Except.error "rpc failed")).calledRpc = true) :=
  ⟨by decide, by decide,
    C3_send_failure_retains_state st0 cache0 rawA 5000 "rpc failed" (by decide) (by decide)⟩

/-- C4 counterexample: at a concrete state whose RPC client has a set
activity, `reset()` leaves the whole client state — including the activity —
untouched, contradicting the claim that after `reset()` the presence
activity is cleared. -/
theorem C4_counterexample :
    (reset_sys ⟨svc1, cache1, Client.rpcReady⟩).rpc.activity = some Client.act0 ∧
    (reset_sys ⟨svc1, cache1, Client.rpcReady⟩).rpc = Client.rpcReady := by
  exact ⟨rfl, rfl⟩

/-- C4 (amended): `reset()` ends the session, cancels the watchdog, nulls the
current and previous sample pointers, zeroes `lastUpdate`, the paused flag
and both cache counters, but makes no presence call: the RPC client state —
including any set activity — is left unchanged. Clearing the presence
activity is done by `stop()` (when the client is ready), not by `reset()`. -/
theorem C4_reset_keeps_presence (s : SysState) :
    (reset_sys s).svc = ⟨none, none, 0, none, false, none⟩ ∧
    (reset_sys s).cache = ⟨none, 0, 0, 0⟩ ∧
    (reset_sys s).rpc = s.rpc ∧
    (∀ (st : SvcState) (rst : Client.RpcState),
      rst.hasClient = true → rst.ready = true →
      (stop st rst (Except.ok ())).2.activity = none ∧
      (stop st rst (Except.ok ())).1.session = none) := by
  refine ⟨rfl, rfl, rfl, ?_⟩
  intro st rst h1 h2
  constructor <;> simp [stop, Client.clear_activity, h1, h2]

/-- Witness for C4's amended theorem at a concrete state. -/
theorem C4_witness :
    ((reset_sys ⟨svc1, cache1, Client.rpcReady⟩).svc = ⟨none, none, 0, none, false, none⟩ ∧
      (reset_sys ⟨svc1, cache1, Client.rpcReady⟩).cache = ⟨none, 0, 0, 0⟩) ∧
    Client.rpcReady.hasClient = true ∧ Client.rpcReady.ready = true ∧
    (stop svc1 Client.rpcReady (Except.ok ())).2.activity = none ∧
    (stop svc1 Client.rpcReady (Except.ok ())).1.session = none :=
  ⟨⟨(C4_reset_keeps_presence ⟨svc1, cache1, Client.rpcReady⟩).1,
    (C4_reset_keeps_presence ⟨svc1, cache1, Client.rpcReady⟩).2.1⟩,
   by decide, by decide,
   ((C4_reset_keeps_presence ⟨svc1, cache1, Client.rpcReady⟩).2.2.2 svc1 Client.rpcReady
      (by decide) (by decide)).1,
   ((C4_reset_keeps_presence ⟨svc1, cache1, Client.rpcReady⟩).2.2.2 svc1 Client.rpcReady
      (by decide) (by decide)).2⟩

/-- C5: the inactivity watchdog fires exactly when its armed deadline has
passed with no accepted sample rearming it (every accepted sample rearms the
timer to 60000 ms — the default 60 s window — via `reset_timeout`); firing
ends the current session, instructs the presence connection to clear its
activity (which empties it when the client is ready and the clear resolves),
and clears the current and previous sample pointers, so that afterwards
`status().active = false` and `status().session = none`. -/
theorem C5_watchdog_timeout (st : SvcState) (rst : Client.RpcState)
    (send : Except String Unit) (c : Cache) (now now0 : Nat)
    (st2 : SvcState) (rst2 : Client.RpcState)
    (hfire : watchdog_fire st rst now send = some (st2, rst2)) :
    (reset_timeout st now0).watchdog = some (now0 + 60000) ∧
    st2.session = none ∧ st2.current = none ∧ st2.previous = none ∧
    (status st2 c).active = false ∧ (status st2 c).session = none ∧
    (rst.hasClient = true → rst.ready = true → send = Except.ok () →
      rst2.activity = none) := by
  have hp : handle_timeout st rst send = (st2, rst2) := by
    unfold watchdog_fire at hfire
    cases hw : st.watchdog with
    | none => rw [hw] at hfire; exact absurd hfire (by simp)
    | some d2 =>
      rw [hw] at hfire
      by_cases hle : d2 ≤ now
      · simpa [hle] using hfire
      · simp [hle] at hfire
  have h1 : st2 = (handle_timeout st rst send).1 := by rw [hp]
  have h2 : rst2 = (handle_timeout st rst send).2 := by rw [hp]
  refine ⟨by simp [reset_timeout, config], ?_, ?_, ?_, ?_, ?_, ?_⟩
  · rw [h1]; simp [handle_timeout]
  · rw [h1]; simp [handle_timeout]
  · rw [h1]; simp [handle_timeout]
  · rw [h1]; simp [handle_timeout, status]
  · rw [h1]; simp [handle_timeout, status]
  · intro hcl hr hsend
    subst hsend
    rw [h2]
    simp [handle_timeout, Client.clear_activity, hcl, hr]

/-- Witness for C5: the watchdog armed at 65000 fires at 70000 on a ready
client with a set activity. -/
theorem C5_witness :
    watchdog_fire svc1 Client.rpcReady 70000 (Except.ok ()) =
      some (svcCleared, Client.rpcCleared) ∧
    ((reset_timeout svc1 9000).watchdog = some (9000 + 60000) ∧
      svcCleared.session = none ∧ svcCleared.current = none ∧ svcCleared.previous = none ∧
      (status svcCleared cache1).active = false ∧ (status svcCleared cache1).session = none ∧
      (Client.rpcReady.hasClient = true → Client.rpcReady.ready = true →
        (Except.ok () : Except String Unit) = Except.ok () →
        Client.rpcCleared.activity = none)) :=
  ⟨by decide,
    C5_watchdog_timeout svc1 Client.rpcReady (Except.ok ()) cache1 70000 9000
      svcCleared Client.rpcCleared (by decide)⟩

/-- C6: for an accepted sample applied to an existing session with the same
title (with a current sample present, as in every reachable state that has a
session), watch-time accrues only while the sample is playing, and the
amount added is `min((now - lastUpdate)/1000, 5)` seconds — one gap between
accepted samples contributes at most the change threshold of 5 seconds. -/
theorem C6_watch_time_accrual (st : SvcState) (n : NormalizedSample) (now : Nat)
    (s : Session) (cur : NormalizedSample)
    (hses : st.session = some s) (hcur : st.current = some cur)
    (ht : s.title = n.title) :
    (update_session st n now).watched =
      s.watched +
        (if n.playing = true then
          min ((((now : ℤ) - (st.lastUpdate : ℤ) : ℤ) : ℚ) / 1000) 5
        else 0) := by
  simp [update_session, hses, hcur, ht]
  split_ifs <;> simp [config]

set_option maxRecDepth 4000 in
/-- Witness for C6: a playing sample 2000 ms after the last update accrues
`min(2, 5)` seconds to the session of the same title. -/
theorem C6_witness :
    svc1.session = some (create_session (normalize rawA 5000) 5000) ∧
    svc1.current = some (normalize rawA 5000) ∧
    (create_session (normalize rawA 5000) 5000).title = (normalize rawA 7000).title ∧
    (update_session svc1 (normalize rawA 7000) 7000).watched =
      (create_session (normalize rawA 5000) 5000).watched +
        (if (normalize rawA 7000).playing = true then
          min ((((7000 : ℤ) - (svc1.lastUpdate : ℤ) : ℤ) : ℚ) / 1000) 5
        else 0) :=
  ⟨rfl, rfl, rfl,
    C6_watch_time_accrual svc1 (normalize rawA 7000) 7000
      (create_session (normalize rawA 5000) 5000) (normalize rawA 5000) rfl rfl rfl⟩

end Netflix

namespace Client

theorem parse_stranger :
    parse_title "Stranger Things: S04E09 - The Piggyback" =
      some ⟨"Stranger Things", some "04", "09", some "The Piggyback", "season"⟩ := by
  decide

theorem parse_inception : parse_title "Inception" = none := by
  decide

theorem format_stranger :
    format_activity ⟨"Stranger Things: S04E09 - The Piggyback", 0, 3000, true⟩ =
      ⟨"Stranger Things", some "S04E09 - The Piggyback", "netflix_logo", "Netflix", 3,
        false, none, none⟩ := by
  decide

theorem format_inception :
    format_activity ⟨"Inception", 500, 7200, false⟩ =
      ⟨"Inception", none, "netflix_logo", "Netflix", 3, false, none, none⟩ := by
  decide

/-- C7: with a ready client, rendering the sample
`{title := "Stranger Things: S04E09 - The Piggyback", current := 0,
duration := 3000, playing := true}` sends an activity with details
"Stranger Things", state "S04E09 - The Piggyback",
`startTimestamp = ⌊now/1000⌋` (≈ now) and `endTimestamp = ⌊now/1000⌋ + 3000`
(≈ now + 3000); rendering `{title := "Inception", current := 500,
duration := 7200, playing := false}` sends an activity with details
"Inception", no state field and no timestamps — timestamps are emitted only
when playing with a positive duration. -/
theorem C7_render_scenarios (now : Nat) (rst : RpcState)
    (hclient : rst.hasClient = true) (hready : rst.ready = true) :
    (set_activity ⟨"Stranger Things: S04E09 - The Piggyback", 0, 3000, true⟩ rst now
        (Except.ok ())).sent =
      some ⟨"Stranger Things", some "S04E09 - The Piggyback", "netflix_logo", "Netflix", 3,
        false, some ((now / 1000 : Nat) : Int), some (((now / 1000 : Nat) : Int) + 3000)⟩ ∧
    (set_activity ⟨"Inception", 500, 7200, false⟩ rst now (Except.ok ())).sent =
      some ⟨"Inception", none, "netflix_logo", "Netflix", 3, false, none, none⟩ := by
  have hval1 : validate_data ⟨"Stranger Things: S04E09 - The Piggyback", 0, 3000, true⟩
      = true := by decide
  have hval2 : validate_data ⟨"Inception", 500, 7200, false⟩ = true := by decide
  constructor
  · simp only [set_activity, hval1, hclient, hready, Bool.not_true, Bool.and_self,
      Bool.false_eq_true, if_false, ite_false, ite_true]
    simp [render_payload, format_stranger]
  · simp only [set_activity, hval2, hclient, hready, Bool.not_true, Bool.and_self,
      Bool.false_eq_true, if_false, ite_false, ite_true]
    simp [render_payload, format_inception]

/-- Witness for C7 on a concrete ready client and clock value. -/
theorem C7_witness :
    rpcReady.hasClient = true ∧ rpcReady.ready = true ∧
    ((set_activity ⟨"Stranger Things: S04E09 - The Piggyback", 0, 3000, true⟩ rpcReady
        1700000000123 (Except.ok ())).sent =
      some ⟨"Stranger Things", some "S04E09 - The Piggyback", "netflix_logo", "Netflix", 3,
        false, some ((1700000000123 / 1000 : Nat) : Int),
        some (((1700000000123 / 1000 : Nat) : Int) + 3000)⟩ ∧
    (set_activity ⟨"Inception", 500, 7200, false⟩ rpcReady 1700000000123
        (Except.ok ())).sent =
      some ⟨"Inception", none, "netflix_logo", "Netflix", 3, false, none, none⟩) :=
  ⟨rfl, rfl, C7_render_scenarios 1700000000123 rpcReady rfl rfl⟩

/-- C8: after a `disconnected` event a reconnect is scheduled at the fixed
5000 ms delay exactly when the attempt counter is below the maximum of 3
(the counter is not changed there); after a failed login the incremented
counter (zeroed first by `create`/`destroy` when a client handle existed) must
be below 3 for a reconnect to be scheduled; any scheduled reconnect has delay
5000 and a post-state counter below 3; and from an exhausted, quiescent,
disconnected state (counter at least 3, no pending timer) no sequence of
automatic events ever schedules a reconnect or brings the connection up —
only an explicit `connect` call can. -/
theorem C8_reconnect_policy :
    (∀ rst : RpcState,
        (handle_disconnect rst).2 = if rst.attempts < 3 then some 5000 else none) ∧
    (∀ (id : Option String) (rst : RpcState), rst.connected = false →
        (connect id rst false).2.2 =
          if (if rst.hasClient = true then 0 else rst.attempts) + 1 < 3 then some 5000
          else none) ∧
    (∀ (id : Option String) (rst : RpcState) (ok : Bool) (d : Nat),
        (connect id rst ok).2.2 = some d →
        d = 5000 ∧ ok = false ∧ (connect id rst ok).2.1.attempts < 3) ∧
    (∀ (s : ConnSys) (es : List AutoEvent),
        s.pending = 0 → 3 ≤ s.rpc.attempts → s.rpc.connected = false →
        (auto_steps s es).pending = 0 ∧ 3 ≤ (auto_steps s es).rpc.attempts ∧
        (auto_steps s es).rpc.connected = false) := by
  refine ⟨?_, ?_, ?_, ?_⟩
  · intro rst
    by_cases hlt : rst.attempts < 3 <;> simp [handle_disconnect, rpcConfig, hlt]
  · intro id rst h
    by_cases hc : rst.hasClient = true
    · simp [connect, h, create, destroy, disconnect, rpcConfig, hc]
    · by_cases h2 : rst.attempts + 1 < 3 <;>
        simp [connect, h, create, destroy, disconnect, rpcConfig, hc, h2]
  · intro id rst ok d h
    by_cases hconn : rst.connected = true
    · simp [connect, hconn] at h
    · cases ok with
      | true => simp [connect, hconn] at h
      | false =>
        by_cases hlt : (create id rst).attempts + 1 < 3
        · have h25 : (connect id rst false).2.2 = some 5000 := by
            simp [connect, hconn, rpcConfig, hlt]
          have hd : d = 5000 := by
            rw [h25] at h
            exact (Option.some.inj h).symm
          have hatt : (connect id rst false).2.1.attempts = (create id rst).attempts + 1 := by
            simp [connect, hconn, rpcConfig, hlt]
          refine ⟨hd, rfl, ?_⟩
          rw [hatt]
          exact hlt
        · simp [connect, hconn, rpcConfig, hlt] at h
  · intro s es
    induction es generalizing s with
    | nil =>
      intro h1 h2 h3
      exact ⟨h1, h2, h3⟩
    | cons e rest ih =>
      intro h1 h2 h3
      have hstep : (auto_step s e).pending = 0 ∧ 3 ≤ (auto_step s e).rpc.attempts ∧
          (auto_step s e).rpc.connected = false := by
        cases e with
        | disconnected =>
          have hge : ¬ s.rpc.attempts < 3 := by omega
          simp [auto_step, handle_disconnect, rpcConfig, sched_count, hge, h1, h2]
        | errored => simp [auto_step, handle_error, h1, h2]
        | timerFire ok => simp [auto_step, h1, h2, h3]
      simpa [auto_steps, List.foldl_cons] using
        ih (auto_step s e) hstep.1 hstep.2.1 hstep.2.2

/-- Witness for C8 at concrete states and a concrete automatic-event trace. -/
theorem C8_witness :
    (handle_disconnect rpcExhausted).2 = none ∧
    (connect (some "cid") rpcDown false).2.2 = some 5000 ∧
    ((5000 : Nat) = 5000 ∧ false = false ∧
      (connect (some "cid") rpcDown false).2.1.attempts < 3) ∧
    ((auto_steps ⟨rpcExhausted, 0⟩
        [AutoEvent.disconnected, AutoEvent.errored, AutoEvent.timerFire false]).pending = 0 ∧
      3 ≤ (auto_steps ⟨rpcExhausted, 0⟩
        [AutoEvent.disconnected, AutoEvent.errored, AutoEvent.timerFire false]).rpc.attempts ∧
      (auto_steps ⟨rpcExhausted, 0⟩
        [AutoEvent.disconnected, AutoEvent.errored,
          AutoEvent.timerFire false]).rpc.connected = false) :=
  ⟨by simpa [rpcExhausted] using C8_reconnect_policy.1 rpcExhausted,
   by simpa [rpcDown] using C8_reconnect_policy.2.1 (some "cid") rpcDown rfl,
   C8_reconnect_policy.2.2.1 (some "cid") rpcDown false 5000 (by decide),
   C8_reconnect_policy.2.2.2 ⟨rpcExhausted, 0⟩
     [AutoEvent.disconnected, AutoEvent.errored, AutoEvent.timerFire false]
     rfl (by decide) rfl⟩

/-- C9 counterexample: from the exhausted state with a cached activity, a
manual `connect` (successful login) zeroes the attempt counter but also
clears the cached activity, so when the connection becomes ready nothing is
replayed — contradicting the claim that the last cached activity is replayed
after a manual reconnect. -/
theorem C9_counterexample :
    rpcExhausted.activity.isSome = true ∧
    (connect (some "cid") rpcExhausted true).2.1.attempts = 0 ∧
    (connect (some "cid") rpcExhausted true).2.1.activity = none ∧
    (handle_ready (connect (some "cid") rpcExhausted true).2.1 999000
        (Except.ok ())).2 = none := by
  refine ⟨rfl, rfl, rfl, rfl⟩

/-- C9 (amended): when the connection becomes ready, the attempt counter is
reset to 0 and a cached activity with valid data is immediately re-sent
(replay); but a manual `connect` while disconnected goes through `create`,
which destroys any existing client — zeroing the attempt counter *and*
clearing the cached activity — so after exhausted reconnect attempts a manual
connect that becomes ready has nothing left to replay. -/
theorem C9_ready_replay_connect_wipes (rst : RpcState) (now : Nat)
    (send : Except String Unit) (hclient : rst.hasClient = true) :
    (handle_ready rst now send).1.attempts = 0 ∧
    (rst.activity = none → (handle_ready rst now send).2 = none) ∧
    (∀ a : CachedActivity, rst.activity = some a →
      validate_data ⟨a.title, a.current, a.duration, a.playing⟩ = true →
      (handle_ready rst now send).2 =
        some (render_payload ⟨a.title, a.current, a.duration, a.playing⟩ now)) ∧
    (∀ (id : Option String) (ok : Bool), rst.connected = false →
      (connect id rst ok).2.1.activity = none ∧
      (ok = true → (connect id rst ok).2.1.attempts = 0)) := by
  refine ⟨?_, ?_, ?_, ?_⟩
  · cases ha : rst.activity with
    | none => simp [handle_ready, ha]
    | some a =>
      simp only [handle_ready, ha]
      unfold set_activity
      split_ifs <;> cases send <;> simp
  · intro ha
    simp [handle_ready, ha]
  · intro a ha hvalid
    simp only [handle_ready, ha]
    unfold set_activity
    cases send <;> simp [hvalid, hclient]
  · intro id ok h
    cases ok <;> simp [connect, h, create, destroy, disconnect, rpcConfig, hclient]

/-- Witness for C9's amended theorem: a down client with one prior attempt
and a cached activity replays it on ready; a manual connect wipes it. -/
theorem C9_witness :
    rpcCached.hasClient = true ∧
    (handle_ready rpcCached 8000 (Except.ok ())).1.attempts = 0 ∧
    rpcCached.activity = some act0 ∧
    validate_data ⟨act0.title, act0.current, act0.duration, act0.playing⟩ = true ∧
    (handle_ready rpcCached 8000 (Except.ok ())).2 =
      some (render_payload ⟨act0.title, act0.current, act0.duration, act0.playing⟩ 8000) ∧
    (connect (some "cid2") rpcCached true).2.1.activity = none ∧
    (connect (some "cid2") rpcCached true).2.1.attempts = 0 :=
  ⟨rfl,
   (C9_ready_replay_connect_wipes rpcCached 8000 (Except.ok ()) rfl).1,
   rfl,
   by decide,
   (C9_ready_replay_connect_wipes rpcCached 8000 (Except.ok ()) rfl).2.2.1 act0 rfl (by decide),
   ((C9_ready_replay_connect_wipes rpcCached 8000 (Except.ok ()) rfl).2.2.2
      (some "cid2") true rfl).1,
   ((C9_ready_replay_connect_wipes rpcCached 8000 (Except.ok ()) rfl).2.2.2
      (some "cid2") true rfl).2 rfl⟩

end Client

namespace Netflix

/-- C10: an accepted sample processed while the presence connection is not
connected or not ready still yields `{success := true, data, session}`:
`rpc.update` resolves `false` (with untouched client state and no send)
rather than rejecting — indeed for every input and every outcome of the
underlying Discord call it resolves — and `process` never inspects the
resolved boolean, so its error branch is reachable only through a rejection,
which `set_activity` itself catches and converts to `false`. -/
theorem C10_offline_process_succeeds (st : SvcState) (c : Cache) (raw : RawSample)
    (now nowR : Nat) (b : Bool) (rst : Client.RpcState) (send : Except String Unit)
    (data : Client.MediaData)
    (hv : validate raw = true)
    (hs : should_update st (normalize raw now) now = true)
    (hnc : Client.is_connected rst = false) :
    (∀ rst2 : Client.RpcState, ∃ bb : Bool,
        (Client.rpc_update data rst2 nowR send).1 = Except.ok bb) ∧
    Client.rpc_update data rst nowR send = (Except.ok false, rst, none) ∧
    (process st c raw now (Except.ok b)).result =
      ⟨true, false, some (normalize raw now),
        some (update_session st (normalize raw now) now), none⟩ := by
  refine ⟨?_, ?_, ?_⟩
  · intro rst2
    unfold Client.rpc_update
    by_cases h1 : Client.validate_data data = true
    · by_cases h2 : Client.is_connected rst2 = true
      · exact ⟨(Client.set_activity data rst2 nowR send).result, by simp [h1, h2]⟩
      · exact ⟨false, by simp [h1, h2]⟩
    · exact ⟨false, by simp [h1]⟩
  · unfold Client.rpc_update
    by_cases h1 : Client.validate_data data = true
    · simp [h1, hnc]
    · simp [h1]
  · simp [process, hv, hs, reset_timeout]

/-- Witness for C10 on a disconnected client and a concrete accepted sample. -/
theorem C10_witness :
    validate rawA = true ∧
    should_update st0 (normalize rawA 5000) 5000 = true ∧
    Client.is_connected Client.rpcDown = false ∧
    ((∀ rst2 : Client.RpcState, ∃ bb : Bool,
        (Client.rpc_update Client.mdA rst2 5000 (Except.ok ())).1 = Except.ok bb) ∧
      Client.rpc_update Client.mdA Client.rpcDown 5000 (Except.ok ()) =
        (Except.ok false, Client.rpcDown, none) ∧
      (process st0 cache0 rawA 5000 (Except.ok false)).result =
        ⟨true, false, some (normalize rawA 5000),
          some (update_session st0 (normalize rawA 5000) 5000), none⟩) :=
  ⟨by decide, by decide, rfl,
    C10_offline_process_succeeds st0 cache0 rawA 5000 5000 false Client.rpcDown
      (Except.ok ()) Client.mdA (by decide) (by decide) rfl⟩

end Netflix

end NRPC
